import Mathlib

/-!
Verification of the TruthSense rule-based headline detector
(backend/fakeNewsDetector.ts, the fully weighted deterministic revision).

The engine is shallowly embedded over `List Char`: JavaScript string
operations (trim, toLowerCase, includes, split on whitespace runs,
counting exclamation marks, per-word uppercase comparison) become
executable Lean functions on character lists. All scores are sums of
fixed non-negative integer weights, so they are modelled as `Nat`;
the final score `fakeScore - trustScore` is an `Int`. Every confidence
value produced by the engine is already an integer, so the source call
to Math.round is the identity and is not represented separately; the
clamp Math.min(95, _) is `min 95 _`.
-/

namespace TruthSense

/-- The two output labels of the detector. -/
inductive HeadlineLabel where
  | fake
  | trustworthy
  deriving DecidableEq, Repr

/-- The record returned by detectHeadline: label, confidence, explanation. -/
structure DetectionResult where
  label : HeadlineLabel
  confidence : Nat
  explanation : String
  deriving DecidableEq, Repr

/-- Whitespace characters recognised by trimming and word splitting. -/
def isWS (c : Char) : Bool :=
  c == ' ' || c == '\t' || c == '\n' || c == '\r' || c == '\x0b' || c == '\x0c'

/-- JavaScript headline.trim(): drop leading and trailing whitespace. -/
def trimList (s : List Char) : List Char :=
  ((s.dropWhile isWS).reverse.dropWhile isWS).reverse

/-- JavaScript original.toLowerCase(), per character. -/
def lowerOf (s : List Char) : List Char :=
  s.map Char.toLower

/-- Does the text start with the given pattern? -/
def startsWithPat : List Char → List Char → Bool
  | [], _ => true
  | _ :: _, [] => false
  | p :: ps, t :: ts => p == t && startsWithPat ps ts

/-- JavaScript text.includes(pat): pat occurs as a contiguous substring. -/
def hasSub (pat : List Char) : List Char → Bool
  | [] => startsWithPat pat []
  | t :: ts => startsWithPat pat (t :: ts) || hasSub pat ts

/-- containsAny(text, arr) from the source: some list element is a substring of text. -/
def containsAny (text : List Char) (arr : List (List Char)) : Bool :=
  arr.any fun item => hasSub item text

/-- Split on runs of whitespace, like original.split on a whitespace regex
applied to an already trimmed string. -/
def splitWSAux : List Char → List Char → List (List Char)
  | [], acc => if acc.isEmpty then [] else [acc.reverse]
  | c :: cs, acc =>
    if isWS c then
      if acc.isEmpty then splitWSAux cs [] else acc.reverse :: splitWSAux cs []
    else
      splitWSAux cs (c :: acc)

/-- The word list of the trimmed headline. -/
def wordsOf (original : List Char) : List (List Char) :=
  splitWSAux original []

/-- The impossibleClaims phrase table. -/
def impossibleClaims : List (List Char) :=
  ["immortal".toList, "immortality".toList, "live forever".toList,
   "cure cancer".toList, "cures all diseases".toList, "time travel".toList,
   "teleportation".toList, "reverse aging".toList, "resurrect".toList,
   "brings dead back".toList, "weather control".toList, "invincible".toList]

/-- The strongClickbait phrase table. -/
def strongClickbait : List (List Char) :=
  ["you won\x27t believe".toList, "shocking".toList, "explosive".toList,
   "mind-blowing".toList, "unbelievable".toList,
   "this will change your life".toList, "goes viral".toList,
   "secret method".toList, "top secret".toList, "hidden truth".toList,
   "what happens next".toList]

/-- The sensationalWords phrase table. -/
def sensationalWords : List (List Char) :=
  ["miracle".toList, "outrageous".toList, "insane".toList,
   "jaw-dropping".toList, "scandal".toList, "exposed".toList,
   "insider reveals".toList]

/-- The absoluteLanguage phrase table. -/
def absoluteLanguage : List (List Char) :=
  ["never".toList, "always".toList, "everyone".toList, "no one".toList,
   "proves once and for all".toList]

/-- The trustworthyCues phrase table. -/
def trustworthyCues : List (List Char) :=
  ["study".toList, "research".toList, "according to".toList,
   "report".toList, "analysis".toList, "university".toList,
   "scientists at".toList, "researchers at".toList, "published in".toList,
   "official data".toList, "peer-reviewed".toList, "in a journal".toList]

/-- Category predicate: some impossible-claim phrase occurs in the lowered text. -/
def hitImpossible (lower : List Char) : Bool :=
  containsAny lower impossibleClaims

/-- Category predicate: some strong-clickbait phrase occurs in the lowered text. -/
def hitClickbait (lower : List Char) : Bool :=
  containsAny lower strongClickbait

/-- Category predicate: some sensational word occurs in the lowered text. -/
def hitSensational (lower : List Char) : Bool :=
  containsAny lower sensationalWords

/-- Category predicate: some absolute-language phrase occurs in the lowered text. -/
def hitAbsolute (lower : List Char) : Bool :=
  containsAny lower absoluteLanguage

/-- Category predicate: some trustworthy cue occurs in the lowered text. -/
def hitTrust (lower : List Char) : Bool :=
  containsAny lower trustworthyCues

/-- Number of exclamation marks in the trimmed original. -/
def exclamCount (original : List Char) : Nat :=
  original.count '!'

/-- A shouting word: length at least 4 and equal to its own upper-cased form. -/
def isShout (w : List Char) : Bool :=
  decide (4 ≤ w.length) && w == w.map Char.toUpper

/-- Number of ALL-CAPS words of the trimmed original. -/
def allCapsCount (original : List Char) : Nat :=
  ((wordsOf original).filter isShout).length

/-- Weight contributed by the exclamation-mark rule: 3 for two or more, 1 for one. -/
def exclamScore (original : List Char) : Nat :=
  if 2 ≤ exclamCount original then 3
  else if exclamCount original == 1 then 1
  else 0

/-- Weight contributed by the ALL-CAPS rule. -/
def capsScore (original : List Char) : Nat :=
  if 2 ≤ allCapsCount original then 3 else 0

/-- Weight contributed to fakeScore by the short-headline rule. -/
def shortScore (original : List Char) : Nat :=
  if (wordsOf original).length < 5 then 1 else 0

/-- Weight contributed to trustScore by the long-headline rule. -/
def longScore (original : List Char) : Nat :=
  if 14 < (wordsOf original).length then 1 else 0

/-- Total weight contributed to fakeScore by the four phrase categories. -/
def catFakeScore (lower : List Char) : Nat :=
  (if hitImpossible lower then 5 else 0) +
  (if hitClickbait lower then 4 else 0) +
  (if hitSensational lower then 3 else 0) +
  (if hitAbsolute lower then 2 else 0)

/-- fakeScore after all rules have run. -/
def fakeScoreOf (original lower : List Char) : Nat :=
  catFakeScore lower + exclamScore original + capsScore original +
  shortScore original

/-- trustScore after all rules have run. -/
def trustScoreOf (original lower : List Char) : Nat :=
  (if hitTrust lower then 4 else 0) + longScore original

/-- The reasons array in rule-evaluation order. -/
def reasonsOf (original lower : List Char) : List String :=
  (if hitImpossible lower then
    ["Mentions impossible or pseudoscientific claims."] else []) ++
  (if hitClickbait lower then
    ["Uses strong clickbait language associated with fake headlines."] else []) ++
  (if hitSensational lower then
    ["Contains sensational or emotionally-loaded words."] else []) ++
  (if hitAbsolute lower then
    ["Uses absolute language often seen in misleading content."] else []) ++
  (if 2 ≤ exclamCount original then
    ["Contains multiple exclamation marks, indicating exaggeration."]
   else if exclamCount original == 1 then
    ["Contains an exclamation mark, a common indicator of strong sensationalism."]
   else []) ++
  (if 2 ≤ allCapsCount original then
    ["Contains multiple ALL-CAPS words used to grab attention."] else []) ++
  (if hitTrust lower then
    ["References research, data, universities, or official sources."] else [])

/-- The default explanation when no rule fires. -/
def neutralSentence : String :=
  "The headline appears neutral and does not match common patterns of misleading or sensational content."

/-- Final label decision and raw confidence, before the clamp at 95. -/
def decideLabel (fs ts : Nat) : HeadlineLabel × Nat :=
  let final : Int := (fs : Int) - (ts : Int)
  if 3 ≤ final then (HeadlineLabel.fake, 85 + min (fs * 2) 10)
  else if final ≤ -2 then (HeadlineLabel.trustworthy, 80 + min (ts * 2) 15)
  else (if 0 < final then HeadlineLabel.fake else HeadlineLabel.trustworthy,
        70 + final.natAbs * 5)

/-- The scoring pipeline applied to a non-empty trimmed headline. -/
def scoreHeadline (original : List Char) : DetectionResult :=
  let lower := lowerOf original
  let fs := fakeScoreOf original lower
  let ts := trustScoreOf original lower
  let r := decideLabel fs ts
  let reasons := reasonsOf original lower
  { label := r.1
    confidence := min 95 r.2
    explanation :=
      if reasons.isEmpty then neutralSentence
      else String.intercalate " " reasons }

/-- detectHeadline from the source: trim, short-circuit on empty, then score. -/
def detectHeadline (headline : List Char) : DetectionResult :=
  let original := trimList headline
  if original.isEmpty then
    { label := HeadlineLabel.fake
      confidence := 0
      explanation := "No headline text was provided." }
  else
    scoreHeadline original

/-- finalScore = fakeScore - trustScore from the source, as an integer. -/
def finalScoreOf (original lower : List Char) : Int :=
  (fakeScoreOf original lower : Int) - (trustScoreOf original lower : Int)

/-- p occurs as a literal contiguous substring of t. -/
def IsSubstrOf (p t : List Char) : Prop :=
  ∃ l r, t = l ++ p ++ r

/-- A rule category fires on a lowered text: some phrase of the category
occurs in the text as a literal substring. -/
def FiresOn (cat : List (List Char)) (lower : List Char) : Prop :=
  ∃ p ∈ cat, IsSubstrOf p lower

/-- The eight fixed explanation sentences the rules can append. -/
def ruleSentences : List String :=
  ["Mentions impossible or pseudoscientific claims.",
   "Uses strong clickbait language associated with fake headlines.",
   "Contains sensational or emotionally-loaded words.",
   "Uses absolute language often seen in misleading content.",
   "Contains multiple exclamation marks, indicating exaggeration.",
   "Contains an exclamation mark, a common indicator of strong sensationalism.",
   "Contains multiple ALL-CAPS words used to grab attention.",
   "References research, data, universities, or official sources."]

/-- Unfolding lemma: on a non-empty trimmed headline, detectHeadline runs
the scoring pipeline. -/
theorem detectHeadline_of_ne_nil (s : List Char) (h : trimList s ≠ []) :
    detectHeadline s = scoreHeadline (trimList s) := by
  cases hE : trimList s with
  | nil => exact absurd hE h
  | cons a l => simp [detectHeadline, hE, List.isEmpty]

/-- The raw confidence produced by the decision stage is at least 70. -/
theorem le_decideLabel_snd (fs ts : Nat) : 70 ≤ (decideLabel fs ts).2 := by
  unfold decideLabel
  dsimp only
  split
  · exact le_trans (by norm_num) (Nat.le_add_right 85 _)
  · split
    · exact le_trans (by norm_num) (Nat.le_add_right 80 _)
    · exact Nat.le_add_right 70 _

/-- startsWithPat is the prefix-occurrence predicate. -/
theorem startsWithPat_iff (p t : List Char) :
    startsWithPat p t = true ↔ ∃ r, t = p ++ r := by
  induction p generalizing t with
  | nil => simp [startsWithPat]
  | cons a as ih =>
    cases t with
    | nil => simp [startsWithPat]
    | cons b bs =>
      simp only [startsWithPat, Bool.and_eq_true, beq_iff_eq, ih,
        List.cons_append, List.cons.injEq]
      constructor
      · rintro ⟨hab, r, hr⟩
        exact ⟨r, hab.symm, hr⟩
      · rintro ⟨r, hba, hr⟩
        exact ⟨hba.symm, r, hr⟩

/-- hasSub is the literal-substring predicate. -/
theorem hasSub_iff (p t : List Char) :
    hasSub p t = true ↔ IsSubstrOf p t := by
  induction t with
  | nil =>
    simp only [hasSub, startsWithPat_iff, IsSubstrOf]
    constructor
    · rintro ⟨r, hr⟩
      exact ⟨[], r, by simpa using hr⟩
    · rintro ⟨l, r, hr⟩
      rcases List.append_eq_nil.mp hr.symm with ⟨h1, h2⟩
      rcases List.append_eq_nil.mp h1 with ⟨h3, h4⟩
      exact ⟨r, by simp [h4, h2.symm]⟩
  | cons c ts ih =>
    simp only [hasSub, Bool.or_eq_true, startsWithPat_iff, ih, IsSubstrOf]
    constructor
    · rintro (⟨r, hr⟩ | ⟨l, r, hr⟩)
      · exact ⟨[], r, by simpa using hr⟩
      · exact ⟨c :: l, r, by simp [hr]⟩
    · rintro ⟨l, r, hr⟩
      cases l with
      | nil => exact Or.inl ⟨r, by simpa using hr⟩
      | cons x xs =>
        rw [List.cons_append, List.cons_append] at hr
        injection hr with hcx hts
        exact Or.inr ⟨xs, r, by simpa using hts⟩

/-- containsAny is the fires-on-any-phrase predicate. -/
theorem containsAny_iff (text : List Char) (arr : List (List Char)) :
    containsAny text arr = true ↔ FiresOn arr text := by
  simp [containsAny, List.any_eq_true, hasSub_iff, FiresOn]

/-- The scoring pipeline labels a headline trustworthy exactly when its
final score is non-positive. -/
theorem scoreHeadline_label_iff (o : List Char) :
    (scoreHeadline o).label = HeadlineLabel.trustworthy ↔
      finalScoreOf o (lowerOf o) ≤ 0 := by
  simp only [scoreHeadline, decideLabel, finalScoreOf]
  split
  · rename_i hc
    simp only []
    constructor
    · intro hEq; exact absurd hEq (by simp)
    · intro hle; omega
  · split
    · rename_i hc1 hc2
      simp only []
      constructor
      · intro _; omega
      · intro _; trivial
    · rename_i hc1 hc2
      split
      · rename_i hpos
        constructor
        · intro hEq; exact absurd hEq (by simp)
        · intro hle; omega
      · rename_i hpos
        constructor
        · intro _; omega
        · intro _; trivial

/-- detectHeadline labels a headline trustworthy exactly when the trimmed
input is non-empty and the final score is non-positive. -/
theorem detect_label_trustworthy_iff (s : List Char) :
    (detectHeadline s).label = HeadlineLabel.trustworthy ↔
      (trimList s ≠ [] ∧
        finalScoreOf (trimList s) (lowerOf (trimList s)) ≤ 0) := by
  by_cases h : trimList s = []
  · simp [detectHeadline, h, List.isEmpty]
  · rw [detectHeadline_of_ne_nil s h, scoreHeadline_label_iff]
    simp [h]

/-- C1: for every input whose trimmed form is empty (the empty string and
all-whitespace strings included), detectHeadline returns exactly the
sentinel result with label fake, confidence 0 and explanation
"No headline text was provided.", and no scoring stage runs. -/
theorem c1_empty_input_sentinel (s : List Char) (h : trimList s = []) :
    detectHeadline s =
      { label := HeadlineLabel.fake, confidence := 0,
        explanation := "No headline text was provided." } := by
  simp [detectHeadline, h, List.isEmpty]

/-- Witness for C1 at the all-whitespace input consisting of three spaces. -/
theorem c1_empty_input_sentinel_witness :
    trimList "   ".toList = [] ∧
    detectHeadline "   ".toList =
      { label := HeadlineLabel.fake, confidence := 0,
        explanation := "No headline text was provided." } :=
  ⟨by decide, c1_empty_input_sentinel _ (by decide)⟩

/-- C2: for every input string, the confidence field of detectHeadline is
an integer with 0 <= confidence <= 95 (it is modelled as a natural
number, so the lower bound is by construction). -/
theorem c2_confidence_bounds (s : List Char) :
    0 ≤ (detectHeadline s).confidence ∧ (detectHeadline s).confidence ≤ 95 := by
  refine ⟨Nat.zero_le _, ?_⟩
  by_cases h : trimList s = []
  · simp [detectHeadline, h, List.isEmpty]
  · rw [detectHeadline_of_ne_nil s h]
    simp only [scoreHeadline]
    exact min_le_left _ _

/-- C7 counterexample: on the neutral scenario headline the engine does
return label trustworthy, but with confidence 70, not 83 as claimed. -/
theorem c7_neutral_scenario_counterexample :
    ¬ ((detectHeadline "City council approves new budget for road repairs".toList).label
          = HeadlineLabel.trustworthy ∧
       (detectHeadline "City council approves new budget for road repairs".toList).confidence
          = 83) := by
  decide

/-- C7 amended: detectHeadline on the neutral scenario headline returns
label trustworthy with confidence 70, via the borderline branch with no
rules triggered and final score 0. -/
theorem c7_neutral_scenario_amended :
    detectHeadline "City council approves new budget for road repairs".toList =
      { label := HeadlineLabel.trustworthy, confidence := 70,
        explanation := neutralSentence } ∧
    reasonsOf (trimList "City council approves new budget for road repairs".toList)
      (lowerOf (trimList "City council approves new budget for road repairs".toList)) = [] ∧
    finalScoreOf (trimList "City council approves new budget for road repairs".toList)
      (lowerOf (trimList "City council approves new budget for road repairs".toList)) = 0 := by
  refine ⟨by decide, by decide, by decide⟩

/-- C8: detectHeadline is deterministic: equal input strings always produce
identical DetectionResult values; the embedding is a pure function of the
input, with no randomness, time or hidden state. -/
theorem c8_deterministic (s t : List Char) (h : s = t) :
    detectHeadline s = detectHeadline t := by
  rw [h]

/-- Witness for C8 on a concrete input. -/
theorem c8_deterministic_witness :
    "Breaking news!".toList = "Breaking news!".toList ∧
    detectHeadline "Breaking news!".toList = detectHeadline "Breaking news!".toList :=
  ⟨rfl, c8_deterministic _ _ rfl⟩

/-- C10: for every input whose trimmed form is non-empty, the confidence
returned by detectHeadline is at least 70: every decision branch adds a
non-negative amount to a base of at least 70 before the clamp at 95. -/
theorem c10_nonempty_confidence_ge_70 (s : List Char) (h : trimList s ≠ []) :
    70 ≤ (detectHeadline s).confidence := by
  rw [detectHeadline_of_ne_nil s h]
  simp only [scoreHeadline]
  exact le_min (by norm_num) (le_decideLabel_snd _ _)

/-- Witness for C10 on a concrete non-empty input. -/
theorem c10_nonempty_confidence_ge_70_witness :
    trimList "hello there my good people".toList ≠ [] ∧
    70 ≤ (detectHeadline "hello there my good people".toList).confidence :=
  ⟨by decide, c10_nonempty_confidence_ge_70 _ (by decide)⟩

/-- C3: for every non-empty (after trimming) input, with
finalScore = fakeScore - trustScore, the label and confidence are decided
by the first matching threshold in order: finalScore >= 3 gives fake with
confidence min(95, 85 + min(fakeScore * 2, 10)); finalScore <= -2 gives
trustworthy with confidence min(95, 80 + min(trustScore * 2, 15));
otherwise the label is fake if finalScore > 0 else trustworthy, with
confidence min(95, 70 + |finalScore| * 5). All quantities are integers,
so the rounding in the spec formulas is the identity. -/
theorem c3_threshold_decision (s : List Char) (h : trimList s ≠ []) :
    (detectHeadline s).label =
      (if 3 ≤ finalScoreOf (trimList s) (lowerOf (trimList s)) then
        HeadlineLabel.fake
       else if finalScoreOf (trimList s) (lowerOf (trimList s)) ≤ -2 then
        HeadlineLabel.trustworthy
       else if 0 < finalScoreOf (trimList s) (lowerOf (trimList s)) then
        HeadlineLabel.fake
       else HeadlineLabel.trustworthy) ∧
    (detectHeadline s).confidence =
      (if 3 ≤ finalScoreOf (trimList s) (lowerOf (trimList s)) then
        min 95 (85 + min (fakeScoreOf (trimList s) (lowerOf (trimList s)) * 2) 10)
       else if finalScoreOf (trimList s) (lowerOf (trimList s)) ≤ -2 then
        min 95 (80 + min (trustScoreOf (trimList s) (lowerOf (trimList s)) * 2) 15)
       else
        min 95 (70 + (finalScoreOf (trimList s) (lowerOf (trimList s))).natAbs * 5)) := by
  rw [detectHeadline_of_ne_nil s h]
  simp only [scoreHeadline, decideLabel, finalScoreOf]
  constructor
  · split
    · rfl
    · split
      · rfl
      · split
        · rfl
        · rfl
  · split
    · rfl
    · split
      · rfl
      · rfl

/-- Witness for C3 on a concrete short input: one word, fakeScore 1,
trustScore 0, final score 1, borderline fake with confidence 75. -/
theorem c3_threshold_decision_witness :
    trimList "hi".toList ≠ [] ∧
    ((detectHeadline "hi".toList).label =
      (if 3 ≤ finalScoreOf (trimList "hi".toList) (lowerOf (trimList "hi".toList)) then
        HeadlineLabel.fake
       else if finalScoreOf (trimList "hi".toList) (lowerOf (trimList "hi".toList)) ≤ -2 then
        HeadlineLabel.trustworthy
       else if 0 < finalScoreOf (trimList "hi".toList) (lowerOf (trimList "hi".toList)) then
        HeadlineLabel.fake
       else HeadlineLabel.trustworthy) ∧
    (detectHeadline "hi".toList).confidence =
      (if 3 ≤ finalScoreOf (trimList "hi".toList) (lowerOf (trimList "hi".toList)) then
        min 95 (85 + min (fakeScoreOf (trimList "hi".toList) (lowerOf (trimList "hi".toList)) * 2) 10)
       else if finalScoreOf (trimList "hi".toList) (lowerOf (trimList "hi".toList)) ≤ -2 then
        min 95 (80 + min (trustScoreOf (trimList "hi".toList) (lowerOf (trimList "hi".toList)) * 2) 15)
       else
        min 95 (70 + (finalScoreOf (trimList "hi".toList) (lowerOf (trimList "hi".toList))).natAbs * 5))) :=
  ⟨by decide, c3_threshold_decision _ (by decide)⟩

/-- C5: for every non-empty (after trimming) input, the explanation equals
the triggered rules fixed sentences concatenated in rule-evaluation order,
separated by a single space; if no rule triggered it equals exactly the
fixed neutral sentence. -/
theorem c5_explanation_formation (s : List Char) (h : trimList s ≠ []) :
    (detectHeadline s).explanation =
      (if reasonsOf (trimList s) (lowerOf (trimList s)) = ([] : List String) then
        "The headline appears neutral and does not match common patterns of misleading or sensational content."
       else
        String.intercalate " " (reasonsOf (trimList s) (lowerOf (trimList s)))) ∧
    reasonsOf (trimList s) (lowerOf (trimList s)) =
      (if hitImpossible (lowerOf (trimList s)) then
        ["Mentions impossible or pseudoscientific claims."] else []) ++
      (if hitClickbait (lowerOf (trimList s)) then
        ["Uses strong clickbait language associated with fake headlines."] else []) ++
      (if hitSensational (lowerOf (trimList s)) then
        ["Contains sensational or emotionally-loaded words."] else []) ++
      (if hitAbsolute (lowerOf (trimList s)) then
        ["Uses absolute language often seen in misleading content."] else []) ++
      (if 2 ≤ exclamCount (trimList s) then
        ["Contains multiple exclamation marks, indicating exaggeration."]
       else if exclamCount (trimList s) == 1 then
        ["Contains an exclamation mark, a common indicator of strong sensationalism."]
       else []) ++
      (if 2 ≤ allCapsCount (trimList s) then
        ["Contains multiple ALL-CAPS words used to grab attention."] else []) ++
      (if hitTrust (lowerOf (trimList s)) then
        ["References research, data, universities, or official sources."] else []) := by
  constructor
  · rw [detectHeadline_of_ne_nil s h]
    simp only [scoreHeadline, neutralSentence]
    cases hR : reasonsOf (trimList s) (lowerOf (trimList s)) with
    | nil => simp [List.isEmpty]
    | cons a l => simp [List.isEmpty]
  · rfl

/-- Witness for C5 on a concrete input triggering the clickbait and
single-exclamation rules. -/
theorem c5_explanation_formation_witness :
    trimList "Shocking news!".toList ≠ [] ∧
    ((detectHeadline "Shocking news!".toList).explanation =
      (if reasonsOf (trimList "Shocking news!".toList) (lowerOf (trimList "Shocking news!".toList)) = ([] : List String) then
        "The headline appears neutral and does not match common patterns of misleading or sensational content."
       else
        String.intercalate " " (reasonsOf (trimList "Shocking news!".toList) (lowerOf (trimList "Shocking news!".toList)))) ∧
    reasonsOf (trimList "Shocking news!".toList) (lowerOf (trimList "Shocking news!".toList)) =
      (if hitImpossible (lowerOf (trimList "Shocking news!".toList)) then
        ["Mentions impossible or pseudoscientific claims."] else []) ++
      (if hitClickbait (lowerOf (trimList "Shocking news!".toList)) then
        ["Uses strong clickbait language associated with fake headlines."] else []) ++
      (if hitSensational (lowerOf (trimList "Shocking news!".toList)) then
        ["Contains sensational or emotionally-loaded words."] else []) ++
      (if hitAbsolute (lowerOf (trimList "Shocking news!".toList)) then
        ["Uses absolute language often seen in misleading content."] else []) ++
      (if 2 ≤ exclamCount (trimList "Shocking news!".toList) then
        ["Contains multiple exclamation marks, indicating exaggeration."]
       else if exclamCount (trimList "Shocking news!".toList) == 1 then
        ["Contains an exclamation mark, a common indicator of strong sensationalism."]
       else []) ++
      (if 2 ≤ allCapsCount (trimList "Shocking news!".toList) then
        ["Contains multiple ALL-CAPS words used to grab attention."] else []) ++
      (if hitTrust (lowerOf (trimList "Shocking news!".toList)) then
        ["References research, data, universities, or official sources."] else [])) :=
  ⟨by decide, c5_explanation_formation _ (by decide)⟩

/-- C4: each of the five rule categories fires exactly when the lowered
trimmed headline contains some phrase of the category as a literal
substring (case-insensitive via lowering, no word boundaries), and a
firing category contributes its full fixed weight exactly once, however
many of its phrases match, and nothing otherwise. -/
theorem c4_category_weights (s : List Char) :
    (hitImpossible (lowerOf (trimList s)) = true ↔
      FiresOn impossibleClaims (lowerOf (trimList s))) ∧
    (hitClickbait (lowerOf (trimList s)) = true ↔
      FiresOn strongClickbait (lowerOf (trimList s))) ∧
    (hitSensational (lowerOf (trimList s)) = true ↔
      FiresOn sensationalWords (lowerOf (trimList s))) ∧
    (hitAbsolute (lowerOf (trimList s)) = true ↔
      FiresOn absoluteLanguage (lowerOf (trimList s))) ∧
    (hitTrust (lowerOf (trimList s)) = true ↔
      FiresOn trustworthyCues (lowerOf (trimList s))) ∧
    catFakeScore (lowerOf (trimList s)) =
      (if hitImpossible (lowerOf (trimList s)) then 5 else 0) +
      (if hitClickbait (lowerOf (trimList s)) then 4 else 0) +
      (if hitSensational (lowerOf (trimList s)) then 3 else 0) +
      (if hitAbsolute (lowerOf (trimList s)) then 2 else 0) ∧
    trustScoreOf (trimList s) (lowerOf (trimList s)) =
      (if hitTrust (lowerOf (trimList s)) then 4 else 0) +
      longScore (trimList s) :=
  ⟨containsAny_iff _ _, containsAny_iff _ _, containsAny_iff _ _,
   containsAny_iff _ _, containsAny_iff _ _, rfl, rfl⟩

/-- C6: for every non-empty (after trimming) input, a word count above 14
adds exactly 1 to trustScore, a word count below 5 adds exactly 1 to
fakeScore, and neither length rule appends an explanation sentence: every
explanation sentence comes from the eight fixed rule sentences. -/
theorem c6_length_rules (s : List Char) (_h : trimList s ≠ []) :
    (14 < (wordsOf (trimList s)).length →
      trustScoreOf (trimList s) (lowerOf (trimList s)) =
        (if hitTrust (lowerOf (trimList s)) then 4 else 0) + 1) ∧
    (¬ 14 < (wordsOf (trimList s)).length →
      trustScoreOf (trimList s) (lowerOf (trimList s)) =
        (if hitTrust (lowerOf (trimList s)) then 4 else 0)) ∧
    ((wordsOf (trimList s)).length < 5 →
      fakeScoreOf (trimList s) (lowerOf (trimList s)) =
        catFakeScore (lowerOf (trimList s)) + exclamScore (trimList s) +
          capsScore (trimList s) + 1) ∧
    (¬ (wordsOf (trimList s)).length < 5 →
      fakeScoreOf (trimList s) (lowerOf (trimList s)) =
        catFakeScore (lowerOf (trimList s)) + exclamScore (trimList s) +
          capsScore (trimList s)) ∧
    reasonsOf (trimList s) (lowerOf (trimList s)) ⊆ ruleSentences := by
  refine ⟨?_, ?_, ?_, ?_, ?_⟩
  · intro h14; simp [trustScoreOf, longScore, h14]
  · intro h14; simp [trustScoreOf, longScore, h14]
  · intro h5; simp [fakeScoreOf, shortScore, h5]
  · intro h5; simp [fakeScoreOf, shortScore, h5]
  · intro r hr
    simp only [reasonsOf, List.mem_append] at hr
    rcases hr with ((((((h1 | h1) | h1) | h1) | h1) | h1) | h1) <;>
      (split_ifs at h1 <;> simp_all [ruleSentences])

/-- Witness for C6 on a concrete non-empty input. -/
theorem c6_length_rules_witness :
    trimList "What a day".toList ≠ [] ∧
    ((14 < (wordsOf (trimList "What a day".toList)).length →
      trustScoreOf (trimList "What a day".toList) (lowerOf (trimList "What a day".toList)) =
        (if hitTrust (lowerOf (trimList "What a day".toList)) then 4 else 0) + 1) ∧
    (¬ 14 < (wordsOf (trimList "What a day".toList)).length →
      trustScoreOf (trimList "What a day".toList) (lowerOf (trimList "What a day".toList)) =
        (if hitTrust (lowerOf (trimList "What a day".toList)) then 4 else 0)) ∧
    ((wordsOf (trimList "What a day".toList)).length < 5 →
      fakeScoreOf (trimList "What a day".toList) (lowerOf (trimList "What a day".toList)) =
        catFakeScore (lowerOf (trimList "What a day".toList)) + exclamScore (trimList "What a day".toList) +
          capsScore (trimList "What a day".toList) + 1) ∧
    (¬ (wordsOf (trimList "What a day".toList)).length < 5 →
      fakeScoreOf (trimList "What a day".toList) (lowerOf (trimList "What a day".toList)) =
        catFakeScore (lowerOf (trimList "What a day".toList)) + exclamScore (trimList "What a day".toList) +
          capsScore (trimList "What a day".toList)) ∧
    reasonsOf (trimList "What a day".toList) (lowerOf (trimList "What a day".toList)) ⊆ ruleSentences) :=
  ⟨by decide, c6_length_rules _ (by decide)⟩

/-- C9: if a second input triggers a superset of the first input's
fake-leaning categories (the four fake phrase categories, the two
exclamation tiers, the ALL-CAPS rule and the short-headline rule) while
the trust-leaning contributions are identical, then the second input's
fakeScore is at least the first's, and if the first input is labelled
fake the second cannot be labelled trustworthy. -/
theorem c9_fake_monotonicity (s₁ s₂ : List Char)
    (h1 : hitImpossible (lowerOf (trimList s₁)) = true →
      hitImpossible (lowerOf (trimList s₂)) = true)
    (h2 : hitClickbait (lowerOf (trimList s₁)) = true →
      hitClickbait (lowerOf (trimList s₂)) = true)
    (h3 : hitSensational (lowerOf (trimList s₁)) = true →
      hitSensational (lowerOf (trimList s₂)) = true)
    (h4 : hitAbsolute (lowerOf (trimList s₁)) = true →
      hitAbsolute (lowerOf (trimList s₂)) = true)
    (h5 : 2 ≤ exclamCount (trimList s₁) → 2 ≤ exclamCount (trimList s₂))
    (h6 : exclamCount (trimList s₁) = 1 → exclamCount (trimList s₂) = 1)
    (h7 : 2 ≤ allCapsCount (trimList s₁) → 2 ≤ allCapsCount (trimList s₂))
    (h8 : (wordsOf (trimList s₁)).length < 5 →
      (wordsOf (trimList s₂)).length < 5)
    (ht : trustScoreOf (trimList s₁) (lowerOf (trimList s₁)) =
      trustScoreOf (trimList s₂) (lowerOf (trimList s₂))) :
    fakeScoreOf (trimList s₁) (lowerOf (trimList s₁)) ≤
      fakeScoreOf (trimList s₂) (lowerOf (trimList s₂)) ∧
    ((detectHeadline s₁).label = HeadlineLabel.fake →
      (detectHeadline s₂).label ≠ HeadlineLabel.trustworthy) := by
  have m1 : (if hitImpossible (lowerOf (trimList s₁)) then (5 : Nat) else 0) ≤
      (if hitImpossible (lowerOf (trimList s₂)) then 5 else 0) := by
    by_cases hb : hitImpossible (lowerOf (trimList s₁)) = true
    · rw [if_pos hb, if_pos (h1 hb)]
    · rw [if_neg hb]; exact Nat.zero_le _
  have m2 : (if hitClickbait (lowerOf (trimList s₁)) then (4 : Nat) else 0) ≤
      (if hitClickbait (lowerOf (trimList s₂)) then 4 else 0) := by
    by_cases hb : hitClickbait (lowerOf (trimList s₁)) = true
    · rw [if_pos hb, if_pos (h2 hb)]
    · rw [if_neg hb]; exact Nat.zero_le _
  have m3 : (if hitSensational (lowerOf (trimList s₁)) then (3 : Nat) else 0) ≤
      (if hitSensational (lowerOf (trimList s₂)) then 3 else 0) := by
    by_cases hb : hitSensational (lowerOf (trimList s₁)) = true
    · rw [if_pos hb, if_pos (h3 hb)]
    · rw [if_neg hb]; exact Nat.zero_le _
  have m4 : (if hitAbsolute (lowerOf (trimList s₁)) then (2 : Nat) else 0) ≤
      (if hitAbsolute (lowerOf (trimList s₂)) then 2 else 0) := by
    by_cases hb : hitAbsolute (lowerOf (trimList s₁)) = true
    · rw [if_pos hb, if_pos (h4 hb)]
    · rw [if_neg hb]; exact Nat.zero_le _
  have mexcl : exclamScore (trimList s₁) ≤ exclamScore (trimList s₂) := by
    by_cases he2 : 2 ≤ exclamCount (trimList s₁)
    · simp [exclamScore, he2, h5 he2]
    · by_cases he1 : exclamCount (trimList s₁) = 1
      · have he1b := h6 he1
        have hn2 : ¬ 2 ≤ exclamCount (trimList s₂) := by omega
        simp [exclamScore, he2, he1, hn2, he1b]
      · have hz : exclamScore (trimList s₁) = 0 := by
          simp [exclamScore, he2, he1]
        rw [hz]; exact Nat.zero_le _
  have mcaps : capsScore (trimList s₁) ≤ capsScore (trimList s₂) := by
    by_cases hc : 2 ≤ allCapsCount (trimList s₁)
    · simp [capsScore, hc, h7 hc]
    · have hz : capsScore (trimList s₁) = 0 := by simp [capsScore, hc]
      rw [hz]; exact Nat.zero_le _
  have mshort : shortScore (trimList s₁) ≤ shortScore (trimList s₂) := by
    by_cases hs5 : (wordsOf (trimList s₁)).length < 5
    · simp [shortScore, hs5, h8 hs5]
    · have hz : shortScore (trimList s₁) = 0 := by simp [shortScore, hs5]
      rw [hz]; exact Nat.zero_le _
  have mono : fakeScoreOf (trimList s₁) (lowerOf (trimList s₁)) ≤
      fakeScoreOf (trimList s₂) (lowerOf (trimList s₂)) := by
    simp only [fakeScoreOf, catFakeScore]
    exact add_le_add
      (add_le_add (add_le_add (add_le_add (add_le_add (add_le_add m1 m2) m3) m4) mexcl) mcaps)
      mshort
  refine ⟨mono, ?_⟩
  intro hfake hcontra
  rw [detect_label_trustworthy_iff] at hcontra
  obtain ⟨hne₂, hle₂⟩ := hcontra
  have hnt₁ : ¬ ((detectHeadline s₁).label = HeadlineLabel.trustworthy) := by
    rw [hfake]; exact fun hEq => HeadlineLabel.noConfusion hEq
  rw [detect_label_trustworthy_iff] at hnt₁
  push_neg at hnt₁
  by_cases hb : trimList s₁ = []
  · have htz : trustScoreOf (trimList s₁) (lowerOf (trimList s₁)) = 0 := by
      rw [hb]; decide
    have hts2 : trustScoreOf (trimList s₂) (lowerOf (trimList s₂)) = 0 := by
      rw [← ht]; exact htz
    have hshort : (wordsOf (trimList s₂)).length < 5 := by
      apply h8; rw [hb]; decide
    have hfs : 1 ≤ fakeScoreOf (trimList s₂) (lowerOf (trimList s₂)) := by
      simp only [fakeScoreOf, shortScore, hshort, if_pos]
      omega
    rw [finalScoreOf, hts2] at hle₂
    omega
  · have hpos := hnt₁ hb
    have hmono2 : finalScoreOf (trimList s₁) (lowerOf (trimList s₁)) ≤
        finalScoreOf (trimList s₂) (lowerOf (trimList s₂)) := by
      simp only [finalScoreOf, ht]
      exact sub_le_sub_right (by exact_mod_cast mono) _
    omega

/-- Witness for C9 with both inputs the same concrete headline. -/
theorem c9_fake_monotonicity_witness :
    (hitImpossible (lowerOf (trimList "hi".toList)) = true →
      hitImpossible (lowerOf (trimList "hi".toList)) = true) ∧
    (hitClickbait (lowerOf (trimList "hi".toList)) = true →
      hitClickbait (lowerOf (trimList "hi".toList)) = true) ∧
    (hitSensational (lowerOf (trimList "hi".toList)) = true →
      hitSensational (lowerOf (trimList "hi".toList)) = true) ∧
    (hitAbsolute (lowerOf (trimList "hi".toList)) = true →
      hitAbsolute (lowerOf (trimList "hi".toList)) = true) ∧
    (2 ≤ exclamCount (trimList "hi".toList) → 2 ≤ exclamCount (trimList "hi".toList)) ∧
    (exclamCount (trimList "hi".toList) = 1 → exclamCount (trimList "hi".toList) = 1) ∧
    (2 ≤ allCapsCount (trimList "hi".toList) → 2 ≤ allCapsCount (trimList "hi".toList)) ∧
    ((wordsOf (trimList "hi".toList)).length < 5 →
      (wordsOf (trimList "hi".toList)).length < 5) ∧
    trustScoreOf (trimList "hi".toList) (lowerOf (trimList "hi".toList)) =
      trustScoreOf (trimList "hi".toList) (lowerOf (trimList "hi".toList)) ∧
    (fakeScoreOf (trimList "hi".toList) (lowerOf (trimList "hi".toList)) ≤
      fakeScoreOf (trimList "hi".toList) (lowerOf (trimList "hi".toList)) ∧
    ((detectHeadline "hi".toList).label = HeadlineLabel.fake →
      (detectHeadline "hi".toList).label ≠ HeadlineLabel.trustworthy)) :=
  ⟨fun a => a, fun a => a, fun a => a, fun a => a, fun a => a, fun a => a,
   fun a => a, fun a => a, rfl,
   c9_fake_monotonicity _ _ (fun a => a) (fun a => a) (fun a => a) (fun a => a)
     (fun a => a) (fun a => a) (fun a => a) (fun a => a) rfl⟩

end TruthSense
